import Mathlib

/-!
Verification of the ai-radar-mobile repository's specification against its
source.  The backend job pipeline is embedded from the Python snippets in
src/docs/INTERVIEW_GUIDE.md (functions generate / do_generation / voice_chat);
the proxy handlers are embedded from src/api/newsapi.js, src/api/sheets.js and
the newsdata handler in src/unnamed/part_000.  Machine state (the in-memory
job registry) is passed explicitly; the background worker's interleaved
single-field assignments are modelled as a trace of record snapshots, one per
atomic write, so that a concurrent status read observes exactly one element of
the trace.
-/

namespace AiRadar

/-- Job status values used by the backend: the spec's state machine is
queued, running, completed, failed. -/
inductive Status where
  | queued
  | running
  | completed
  | failed
deriving DecidableEq, Repr

/-- The job record held in the in-memory `jobs` map.  Fields from the
generate/do_generation snippets: status, percent, message; `result` and
`error` are listed in the spec's data model (the snippet never writes
`result`; the failure arm writes `error`). -/
structure JobRecord where
  status : Status
  percent : Int
  message : String
  result : Option String
  error : Option String
deriving DecidableEq, Repr

/-- One generation step of the worker loop `for step in steps`: it carries the
percent value and the step name written into the record. -/
structure Step where
  percent : Int
  name : String
deriving DecidableEq, Repr

/-- A single atomic field assignment on the job record, matching the Python
single-field mutations `jobs[job_id]['percent'] = ...` etc. -/
inductive Write where
  | setPercent (p : Int)
  | setMessage (m : String)
  | setStatus (s : Status)
  | setError (e : String)
deriving DecidableEq, Repr

/-- Apply one atomic write to a record. -/
def update (r : JobRecord) : Write → JobRecord
  | .setPercent p => ⟨r.status, p, r.message, r.result, r.error⟩
  | .setMessage m => ⟨r.status, r.percent, m, r.result, r.error⟩
  | .setStatus s => ⟨s, r.percent, r.message, r.result, r.error⟩
  | .setError e => ⟨r.status, r.percent, r.message, r.result, some e⟩

/-- The record allocated by the generate endpoint:
`jobs[job_id] = {'status': 'running', 'percent': 0, 'message': 'Starting...'}`
(INTERVIEW_GUIDE.md).  Note the initial status is `running`, not `queued`. -/
def initRecord : JobRecord :=
  ⟨Status.running, 0, "Starting...", none, none⟩

/-- The two writes a worker step performs, in source order:
`jobs[job_id]['percent'] = step.percent` then
`jobs[job_id]['message'] = step.name`. -/
def stepW (s : Step) : List Write :=
  [Write.setPercent s.percent, Write.setMessage s.name]

/-- How one run of do_generation ends.  `success` is the snippet's
`jobs[job_id]['status'] = 'completed'`.  Modelled from the spec: the failure
arm (`failAt k msg`: the worker stops after `k` completed steps, sets
`status=failed` and populates `error`) is not in the snippet; §4.1 says
"On any unrecoverable failure during the sequence it sets `status=failed`
and populates `error`, and does not resume a failed job". -/
inductive Outcome where
  | success
  | failAt (k : Nat) (msg : String)
deriving DecidableEq, Repr

/-- The full ordered list of atomic writes one do_generation run performs on
its job record. -/
def workerWrites (steps : List Step) : Outcome → List Write
  | .success => steps.flatMap stepW ++ [Write.setStatus .completed]
  | .failAt k msg =>
      (steps.take k).flatMap stepW ++ [Write.setStatus .failed, Write.setError msg]

/-- The trace of record snapshots: the record before any write, then after
each successive atomic write.  A status read racing the worker observes
exactly one element of this trace, and successive reads observe elements at
non-decreasing indices. -/
def traceFrom (r : JobRecord) : List Write → List JobRecord
  | [] => [r]
  | w :: ws => r :: traceFrom (update r w) ws

/-- The observable history of a job created by generate and processed by
do_generation with the given steps and outcome. -/
def jobTrace (steps : List Step) (o : Outcome) : List JobRecord :=
  traceFrom initRecord (workerWrites steps o)

/-- Forward reachability in the spec's state machine
queued → running → (completed | failed): `statusLe a b` holds when `b` is
reachable from `a` by zero or more forward transitions. -/
def statusLe : Status → Status → Bool
  | .queued, _ => true
  | .running, .queued => false
  | .running, _ => true
  | .completed, .completed => true
  | .completed, _ => false
  | .failed, .failed => true
  | .failed, _ => false

/-- Snapshot relation: the status component moved only forward. -/
def SLe (x y : JobRecord) : Prop :=
  statusLe x.status y.status = true

/-- Snapshot relation: the percent component did not decrease. -/
def PLe (x y : JobRecord) : Prop :=
  x.percent ≤ y.percent

lemma statusLe_refl (s : Status) : statusLe s s = true := by
  cases s <;> rfl

lemma statusLe_trans : ∀ a b c : Status,
    statusLe a b = true → statusLe b c = true → statusLe a c = true := by
  intro a b c
  cases a <;> cases b <;> cases c <;> simp [statusLe]

instance : IsTrans JobRecord SLe :=
  ⟨fun _ _ _ hab hbc => statusLe_trans _ _ _ hab hbc⟩

instance : IsTrans JobRecord PLe :=
  ⟨fun _ _ _ hab hbc => le_trans hab hbc⟩

lemma traceFrom_head : ∀ (ws : List Write) (r : JobRecord),
    (traceFrom r ws).head? = some r := by
  intro ws r
  cases ws <;> rfl

lemma chain'_SLe_traceFrom (steps : List Step) (ws : List Write) :
    ∀ r : JobRecord, r.status = .running →
    (∀ r' : JobRecord, r'.status = .running → List.Chain' SLe (traceFrom r' ws)) →
    List.Chain' SLe (traceFrom r (steps.flatMap stepW ++ ws)) := by
  induction steps with
  | nil =>
    intro r hr htail
    simpa using htail r hr
  | cons s rest ih =>
    intro r hr htail
    have h1 : (s :: rest).flatMap stepW ++ ws
        = Write.setPercent s.percent ::
          (Write.setMessage s.name :: (rest.flatMap stepW ++ ws)) := by
      simp [stepW]
    rw [h1, traceFrom, traceFrom, List.chain'_cons, List.chain'_cons']
    refine ⟨?_, ?_, ?_⟩
    · simp [SLe, update, hr, statusLe_refl]
    · intro x hx
      rw [traceFrom_head] at hx
      cases hx
      simp [SLe, update, hr, statusLe_refl]
    · exact ih _ (by simp [update, hr]) htail

lemma chain'_SLe_jobTrace (steps : List Step) (o : Outcome) :
    List.Chain' SLe (jobTrace steps o) := by
  cases o with
  | success =>
    refine chain'_SLe_traceFrom steps _ initRecord rfl ?_
    intro r' hr'
    rw [traceFrom, traceFrom, List.chain'_cons']
    refine ⟨?_, List.chain'_singleton _⟩
    intro x hx
    cases hx
    simp only [SLe, update, hr']
    decide
  | failAt k msg =>
    refine chain'_SLe_traceFrom (steps.take k) _ initRecord rfl ?_
    intro r' hr'
    rw [traceFrom, traceFrom, traceFrom, List.chain'_cons, List.chain'_cons']
    refine ⟨?_, ?_, List.chain'_singleton _⟩
    · simp only [SLe, update, hr']
      decide
    · intro x hx
      cases hx
      simp [SLe, update, statusLe_refl]

lemma pairwise_SLe_jobTrace (steps : List Step) (o : Outcome) :
    List.Pairwise SLe (jobTrace steps o) :=
  List.chain'_iff_pairwise.mp (chain'_SLe_jobTrace steps o)

lemma chain'_PLe_traceFrom (steps : List Step) (ws : List Write) :
    ∀ r : JobRecord, List.Chain (· ≤ ·) r.percent (steps.map (·.percent)) →
    (∀ r' : JobRecord, List.Chain' PLe (traceFrom r' ws)) →
    List.Chain' PLe (traceFrom r (steps.flatMap stepW ++ ws)) := by
  induction steps with
  | nil =>
    intro r _ htail
    simpa using htail r
  | cons s rest ih =>
    intro r hchain htail
    rw [List.map_cons, List.chain_cons] at hchain
    have h1 : (s :: rest).flatMap stepW ++ ws
        = Write.setPercent s.percent ::
          (Write.setMessage s.name :: (rest.flatMap stepW ++ ws)) := by
      simp [stepW]
    rw [h1, traceFrom, traceFrom, List.chain'_cons, List.chain'_cons']
    refine ⟨hchain.1, ?_, ?_⟩
    · intro x hx
      rw [traceFrom_head] at hx
      cases hx
      exact le_refl _
    · exact ih _ (by simpa [update] using hchain.2) htail

lemma chain'_PLe_jobTrace (steps : List Step) (o : Outcome)
    (hmono : List.Chain (· ≤ ·) (0 : Int) (steps.map (·.percent))) :
    List.Chain' PLe (jobTrace steps o) := by
  cases o with
  | success =>
    refine chain'_PLe_traceFrom steps _ initRecord hmono ?_
    intro r'
    rw [traceFrom, traceFrom, List.chain'_cons']
    refine ⟨?_, List.chain'_singleton _⟩
    intro x hx
    cases hx
    exact le_refl _
  | failAt k msg =>
    refine chain'_PLe_traceFrom (steps.take k) _ initRecord ?_ ?_
    · have h2 : List.Chain' (· ≤ ·)
          (((0 : Int) :: steps.map (·.percent)).take (k + 1)) :=
        List.Chain'.take
          (show List.Chain' (· ≤ ·) ((0 : Int) :: steps.map (·.percent)) from hmono)
          (k + 1)
      rw [List.take_succ_cons, ← List.map_take] at h2
      exact h2
    · intro r'
      rw [traceFrom, traceFrom, traceFrom, List.chain'_cons, List.chain'_cons']
      exact ⟨le_refl _, fun x hx => by cases hx; exact le_refl _,
        List.chain'_singleton _⟩

lemma pairwise_PLe_jobTrace (steps : List Step) (o : Outcome)
    (hmono : List.Chain (· ≤ ·) (0 : Int) (steps.map (·.percent))) :
    List.Pairwise PLe (jobTrace steps o) :=
  List.chain'_iff_pairwise.mp (chain'_PLe_jobTrace steps o hmono)

/-- Writes that never assign the percent field. -/
def keepsPercent : Write → Prop
  | .setPercent _ => False
  | _ => True

lemma update_percent_of_keeps (r : JobRecord) (w : Write) (h : keepsPercent w) :
    (update r w).percent = r.percent := by
  cases w with
  | setPercent p => exact absurd h (by simp [keepsPercent])
  | setMessage m => rfl
  | setStatus s => rfl
  | setError e => rfl

lemma percent_traceFrom_keeps : ∀ (ws : List Write) (r : JobRecord),
    (∀ w ∈ ws, keepsPercent w) →
    ∀ x ∈ traceFrom r ws, x.percent = r.percent := by
  intro ws
  induction ws with
  | nil =>
    intro r _ x hx
    cases hx with
    | head => rfl
    | tail _ h => cases h
  | cons w ws ih =>
    intro r hws x hx
    rw [traceFrom] at hx
    cases hx with
    | head => rfl
    | tail _ h =>
      have := ih (update r w) (fun w' hw' => hws w' (List.mem_cons_of_mem _ hw')) x h
      rw [this, update_percent_of_keeps r w (hws w (List.mem_cons_self _ _))]

lemma percent_bounds_traceFrom (steps : List Step) (ws : List Write) :
    ∀ r : JobRecord, 0 ≤ r.percent → r.percent ≤ 100 →
    (∀ s ∈ steps, 0 ≤ s.percent ∧ s.percent ≤ 100) →
    (∀ w ∈ ws, keepsPercent w) →
    ∀ x ∈ traceFrom r (steps.flatMap stepW ++ ws),
      0 ≤ x.percent ∧ x.percent ≤ 100 := by
  induction steps with
  | nil =>
    intro r h0 h100 _ hws x hx
    simp only [List.flatMap_nil, List.nil_append] at hx
    have := percent_traceFrom_keeps ws r hws x hx
    rw [this]
    exact ⟨h0, h100⟩
  | cons s rest ih =>
    intro r h0 h100 hsteps hws x hx
    have h1 : (s :: rest).flatMap stepW ++ ws
        = Write.setPercent s.percent ::
          (Write.setMessage s.name :: (rest.flatMap stepW ++ ws)) := by
      simp [stepW]
    rw [h1, traceFrom, traceFrom] at hx
    have hs := hsteps s (List.mem_cons_self _ _)
    cases hx with
    | head => exact ⟨h0, h100⟩
    | tail _ h =>
      cases h with
      | head => exact hs
      | tail _ h' =>
        refine ih _ hs.1 hs.2
          (fun s' hs' => hsteps s' (List.mem_cons_of_mem _ hs')) hws x h'

lemma percent_bounds_jobTrace (steps : List Step) (o : Outcome)
    (hsteps : ∀ s ∈ steps, 0 ≤ s.percent ∧ s.percent ≤ 100) :
    ∀ x ∈ jobTrace steps o, 0 ≤ x.percent ∧ x.percent ≤ 100 := by
  cases o with
  | success =>
    exact percent_bounds_traceFrom steps _ initRecord (by decide) (by decide)
      hsteps (by intro w hw; cases hw with
        | head => trivial
        | tail _ h => cases h)
  | failAt k msg =>
    refine percent_bounds_traceFrom (steps.take k) _ initRecord (by decide)
      (by decide) (fun s hs => hsteps s (List.mem_of_mem_take hs)) ?_
    intro w hw
    cases hw with
    | head => trivial
    | tail _ h =>
      cases h with
      | head => trivial
      | tail _ h' => cases h'

/-- The generate endpoint (INTERVIEW_GUIDE.md): allocate the record under a
fresh job id, then return `{'job_id': job_id, 'status': 'queued'}`
immediately.  The registry is the in-memory `jobs` map, modelled as an
association list; the response is the (job_id, status-string) pair. -/
def generate (jobs : List (String × JobRecord)) (newId : String) :
    (String × String) × List (String × JobRecord) :=
  ((newId, "queued"), (newId, initRecord) :: jobs)

lemma statusLe_failed : ∀ b : Status,
    statusLe Status.failed b = true → b = Status.failed := by
  intro b
  cases b <;> simp [statusLe]

/-- The JSON error payload `{error: msg}` the handlers produce. -/
def jsonError (e : String) : String :=
  "\x7b\"error\":\"" ++ e ++ "\"\x7d"

/-- String form of a status, as serialized to clients. -/
def statusStr : Status → String
  | .queued => "queued"
  | .running => "running"
  | .completed => "completed"
  | .failed => "failed"

/-- An HTTP-level response: status code, headers, body text. -/
structure HttpResponse where
  status : Nat
  headers : List (String × String)
  body : String
deriving DecidableEq, Repr

/-- JSON body for a job record returned by the status endpoint. -/
def renderRecord (r : JobRecord) : String :=
  "\x7b\"status\":\"" ++ statusStr r.status ++ "\",\"percent\":"
    ++ toString r.percent ++ ",\"message\":\"" ++ r.message ++ "\"\x7d"

/-- Modelled from the spec: the Flask status endpoint `GET /status/<job_id>`
of the Python backend is documented but its handler is not under src/.
§4.2: "`get_status(job_id) -> JobRecord | NotFound`.  Returns the current
snapshot of the record; if the id is unknown, signals a not-found condition
(mapped to a 404-equivalent at the boundary).  No side effects." -/
def get_status (jobs : List (String × JobRecord)) (jobId : String) :
    Option JobRecord :=
  jobs.lookup jobId

/-- Modelled from the spec: the HTTP boundary of `get_status`, returning the
response together with the (unchanged) registry to record side effects. -/
def status_endpoint (jobs : List (String × JobRecord)) (jobId : String) :
    HttpResponse × List (String × JobRecord) :=
  match jobs.lookup jobId with
  | none => (⟨404, [], jsonError "not found"⟩, jobs)
  | some r => (⟨200, [], renderRecord r⟩, jobs)

lemma lookup_none_iff (jobs : List (String × JobRecord)) (k : String) :
    jobs.lookup k = none ↔ ∀ r, (k, r) ∉ jobs := by
  induction jobs with
  | nil => simp
  | cons p rest ih =>
    obtain ⟨a, b⟩ := p
    by_cases hk : k = a
    · subst hk
      constructor
      · intro h
        exact absurd h (by simp [List.lookup])
      · intro h
        exact absurd (List.mem_cons_self _ _) (h b)
    · have hba : (k == a) = false := beq_eq_false_iff_ne.mpr hk
      simp only [List.lookup, hba, ih, List.mem_cons]
      constructor
      · intro h r hmem
        rcases hmem with h1 | h2
        · exact hk (congrArg Prod.fst h1)
        · exact h r h2
      · intro h r hmem
        exact h r (Or.inr hmem)

lemma lookup_mem (jobs : List (String × JobRecord)) (k : String)
    (r : JobRecord) (h : jobs.lookup k = some r) : (k, r) ∈ jobs := by
  induction jobs with
  | nil => simp [List.lookup] at h
  | cons p rest ih =>
    obtain ⟨a, b⟩ := p
    by_cases hk : k = a
    · subst hk
      simp only [List.lookup, beq_self_eq_true, Option.some.injEq] at h
      subst h
      exact List.mem_cons_self _ _
    · have hba : (k == a) = false := beq_eq_false_iff_ne.mpr hk
      simp only [List.lookup, hba] at h
      exact List.mem_cons_of_mem _ (ih h)

/-- Claim C1: for every created job, the status of the record observed at any
two points of the observable write trace (in temporal order, i.e. successive
reads) only moves forward along `queued → running → {completed | failed}`:
the later status is forward-reachable from the earlier one, and a `failed`
status is never left (a failed job is never resumed). -/
theorem job_status_forward_only (steps : List Step) (o : Outcome)
    (i j : Nat) (hij : i ≤ j) (hj : j < (jobTrace steps o).length) :
    statusLe ((jobTrace steps o).get ⟨i, lt_of_le_of_lt hij hj⟩).status
        ((jobTrace steps o).get ⟨j, hj⟩).status = true
    ∧ (((jobTrace steps o).get ⟨i, lt_of_le_of_lt hij hj⟩).status = Status.failed →
        ((jobTrace steps o).get ⟨j, hj⟩).status = Status.failed) := by
  rcases Nat.lt_or_ge i j with hlt | hge
  · have h := List.pairwise_iff_get.mp (pairwise_SLe_jobTrace steps o)
      ⟨i, lt_of_le_of_lt hij hj⟩ ⟨j, hj⟩ hlt
    refine ⟨h, fun hf => ?_⟩
    rw [SLe, hf] at h
    exact statusLe_failed _ h
  · have heq : i = j := le_antisymm hij hge
    subst heq
    exact ⟨statusLe_refl _, fun hf => hf⟩

/-- Witness for C1 at a concrete job: one step, worker fails after it. -/
theorem job_status_forward_only_witness :
    statusLe ((jobTrace [⟨40, "build"⟩] (Outcome.failAt 1 "boom")).get
        ⟨1, by decide⟩).status
      ((jobTrace [⟨40, "build"⟩] (Outcome.failAt 1 "boom")).get
        ⟨4, by decide⟩).status = true
    ∧ (((jobTrace [⟨40, "build"⟩] (Outcome.failAt 1 "boom")).get
        ⟨1, by decide⟩).status = Status.failed →
      ((jobTrace [⟨40, "build"⟩] (Outcome.failAt 1 "boom")).get
        ⟨4, by decide⟩).status = Status.failed) :=
  job_status_forward_only [⟨40, "build"⟩] (Outcome.failAt 1 "boom") 1 4
    (by decide) (by decide)

/-- Claim C4: for a given job, while the status is `running`, the percent
field is an integer within 0–100 and is non-decreasing across successive
reads.  The generation step list is not under src/ (the worker loop is; the
concrete steps are modelled from the spec's "fixed sequence of generation
steps" whose percents are 0–100 and non-decreasing). -/
theorem job_percent_monotone (steps : List Step) (o : Outcome)
    (hmono : List.Chain (· ≤ ·) (0 : Int) (steps.map (·.percent)))
    (hbound : ∀ s ∈ steps, 0 ≤ s.percent ∧ s.percent ≤ 100)
    (i j : Nat) (hij : i ≤ j) (hj : j < (jobTrace steps o).length)
    (hruni : ((jobTrace steps o).get ⟨i, lt_of_le_of_lt hij hj⟩).status
      = Status.running)
    (hrunj : ((jobTrace steps o).get ⟨j, hj⟩).status = Status.running) :
    ((jobTrace steps o).get ⟨i, lt_of_le_of_lt hij hj⟩).percent ≤
      ((jobTrace steps o).get ⟨j, hj⟩).percent
    ∧ (0 ≤ ((jobTrace steps o).get ⟨i, lt_of_le_of_lt hij hj⟩).percent
        ∧ ((jobTrace steps o).get ⟨i, lt_of_le_of_lt hij hj⟩).percent ≤ 100)
    ∧ (0 ≤ ((jobTrace steps o).get ⟨j, hj⟩).percent
        ∧ ((jobTrace steps o).get ⟨j, hj⟩).percent ≤ 100) := by
  refine ⟨?_, ?_, ?_⟩
  · rcases Nat.lt_or_ge i j with hlt | hge
    · exact List.pairwise_iff_get.mp (pairwise_PLe_jobTrace steps o hmono)
        ⟨i, lt_of_le_of_lt hij hj⟩ ⟨j, hj⟩ hlt
    · have heq : i = j := le_antisymm hij hge
      subst heq
      exact le_refl _
  · exact percent_bounds_jobTrace steps o hbound _ (List.get_mem _ _ _)
  · exact percent_bounds_jobTrace steps o hbound _ (List.get_mem _ _ _)

/-- Witness for C4 at a concrete job: two steps at 30 then 60 percent,
read after the first and after the second percent write. -/
theorem job_percent_monotone_witness :
    ((jobTrace [⟨30, "a"⟩, ⟨60, "b"⟩] Outcome.success).get ⟨1, by decide⟩).percent ≤
      ((jobTrace [⟨30, "a"⟩, ⟨60, "b"⟩] Outcome.success).get ⟨3, by decide⟩).percent
    ∧ (0 ≤ ((jobTrace [⟨30, "a"⟩, ⟨60, "b"⟩] Outcome.success).get
          ⟨1, by decide⟩).percent
        ∧ ((jobTrace [⟨30, "a"⟩, ⟨60, "b"⟩] Outcome.success).get
          ⟨1, by decide⟩).percent ≤ 100)
    ∧ (0 ≤ ((jobTrace [⟨30, "a"⟩, ⟨60, "b"⟩] Outcome.success).get
          ⟨3, by decide⟩).percent
        ∧ ((jobTrace [⟨30, "a"⟩, ⟨60, "b"⟩] Outcome.success).get
          ⟨3, by decide⟩).percent ≤ 100) :=
  job_percent_monotone [⟨30, "a"⟩, ⟨60, "b"⟩] Outcome.success
    (List.Chain.cons (by norm_num) (List.Chain.cons (by norm_num) List.Chain.nil))
    (by decide) 1 3 (by decide) (by decide) (by decide) (by decide)

/-- Claim C2 counterexample: the record generate allocates is not in the
`queued` state — it is created with status `running` (INTERVIEW_GUIDE.md:
`jobs[job_id] = {'status': 'running', ...}`), even though the response body
says `"queued"`. -/
theorem generate_record_not_queued :
    (generate [] "abc123").2.lookup "abc123" = some initRecord
    ∧ initRecord.status ≠ Status.queued := by
  refine ⟨?_, by decide⟩
  simp [generate, List.lookup]

/-- Claim C2 (amended): `create_job` allocates a new job record synchronously
— with status `running` and percent 0, not `queued` — immediately visible in
the registry under the returned id, and the generation-start endpoint's
response to every request is `{job_id, status:"queued"}`. -/
theorem generate_amended (jobs : List (String × JobRecord)) (newId : String) :
    (generate jobs newId).1 = (newId, "queued")
    ∧ (generate jobs newId).2.lookup newId = some initRecord
    ∧ initRecord.status = Status.running
    ∧ initRecord.percent = 0 := by
  refine ⟨rfl, ?_, rfl, rfl⟩
  simp [generate, List.lookup]

/-- Claim C5: for an unknown job id the status endpoint yields not-found
(404) — never a stale or default record — and for a known id it returns the
current snapshot of the record, with no side effect on the registry. -/
theorem get_status_spec (jobs : List (String × JobRecord)) (jobId : String) :
    (get_status jobs jobId = none ↔ ∀ r, (jobId, r) ∉ jobs)
    ∧ (∀ r, get_status jobs jobId = some r → (jobId, r) ∈ jobs)
    ∧ (status_endpoint jobs jobId).2 = jobs
    ∧ (get_status jobs jobId = none →
        (status_endpoint jobs jobId).1 = ⟨404, [], jsonError "not found"⟩)
    ∧ (∀ r, get_status jobs jobId = some r →
        (status_endpoint jobs jobId).1 = ⟨200, [], renderRecord r⟩) := by
  refine ⟨lookup_none_iff jobs jobId, fun r h => lookup_mem jobs jobId r h,
    ?_, ?_, ?_⟩
  · unfold status_endpoint
    cases jobs.lookup jobId <;> rfl
  · intro h
    unfold status_endpoint
    rw [show jobs.lookup jobId = none from h]
  · intro r h
    unfold status_endpoint
    rw [show jobs.lookup jobId = some r from h]

/-- Witness for C5 at a concrete registry: the id "b" is unknown in a
registry holding only "a", and querying it yields the 404 response. -/
theorem get_status_spec_witness :
    get_status [("a", initRecord)] "b" = none
    ∧ (status_endpoint [("a", initRecord)] "b").1
      = ⟨404, [], jsonError "not found"⟩ :=
  ⟨by decide,
    (get_status_spec [("a", initRecord)] "b").2.2.2.1 (by decide)⟩

/-!
Voice pipeline, embedded from the voice_chat snippet in INTERVIEW_GUIDE.md:
base64-decode the posted audio, transcribe it (Whisper), generate the answer
(GPT, with the article title as context), synthesize speech (TTS).  The
external calls are parameters returning `Except`: a Python exception in any
stage propagates and aborts the handler with a single error.
-/

/-- The voice_chat pipeline.  Each `match` is one fallible stage of the
strictly sequential Python flow; an error short-circuits the rest. -/
def voice_chat
    (b64decode : String → Except String (List UInt8))
    (transcribe : List UInt8 → Except String String)
    (chat : String → String → Except String String)
    (tts : String → Except String (List UInt8))
    (audioB64 : String) (title : String) :
    Except String (String × String × List UInt8) :=
  match b64decode audioB64 with
  | .error e => .error e
  | .ok audioBytes =>
    match transcribe audioBytes with
    | .error e => .error e
    | .ok question =>
      match chat title question with
      | .error e => .error e
      | .ok answer =>
        match tts answer with
        | .error e => .error e
        | .ok speech => .ok (question, answer, speech)

/-- Claim C6: every invocation of the voice pipeline yields either the
complete triple (question, answer, audio) produced by the sequential stages
transcribe → generate → synthesize, or the single error of the first failing
stage; a partial triple is never returned. -/
theorem voice_chat_triple_or_single_error
    (d : String → Except String (List UInt8))
    (t : List UInt8 → Except String String)
    (c : String → String → Except String String)
    (y : String → Except String (List UInt8))
    (s title : String) :
    (∀ res, voice_chat d t c y s title = .ok res →
      ∃ b, d s = .ok b ∧ t b = .ok res.1 ∧ c title res.1 = .ok res.2.1
        ∧ y res.2.1 = .ok res.2.2)
    ∧ (∀ e, voice_chat d t c y s title = .error e ↔
        (d s = .error e
        ∨ ∃ b, d s = .ok b ∧ (t b = .error e
          ∨ ∃ q, t b = .ok q ∧ (c title q = .error e
            ∨ ∃ a, c title q = .ok a ∧ y a = .error e)))) := by
  unfold voice_chat
  cases hd : d s with
  | error e0 => simp [hd]
  | ok b0 =>
    cases ht : t b0 with
    | error e1 => simp [hd, ht]
    | ok q0 =>
      cases hc : c title q0 with
      | error e2 => simp [hd, ht, hc]
      | ok a0 =>
        cases hy : y a0 with
        | error e3 => simp [hd, ht, hc, hy]
        | ok sp0 => simp [hd, ht, hc, hy]

/-- Witness for C6: with a synthesis stage that fails, the pipeline surfaces
exactly that single error. -/
theorem voice_chat_single_error_witness :
    voice_chat (fun _ => Except.ok [7]) (fun _ => Except.ok "q")
      (fun _ _ => Except.ok "a") (fun _ => Except.error "tts down")
      "AAA" "Title" = Except.error "tts down" :=
  ((voice_chat_triple_or_single_error (fun _ => Except.ok [7])
      (fun _ => Except.ok "q") (fun _ _ => Except.ok "a")
      (fun _ => Except.error "tts down") "AAA" "Title").2 "tts down").mpr
    (Or.inr ⟨[7], rfl, Or.inr ⟨"q", rfl, Or.inr ⟨"a", rfl, rfl⟩⟩⟩)

/-!
Proxy handlers, embedded from src/api/newsapi.js (news search proxy and
text-to-speech proxy), src/api/sheets.js, and the newsdata proxy in
src/unnamed/part_000.  `fetch` is a parameter: `.ok` is a received upstream
response, `.error` a thrown exception (upstream unreachable).  For the two
news proxies the `response.json()` / `res.json(data)` round-trip is
abstracted as relaying the upstream body text unchanged.
-/

/-- An upstream HTTP response as the proxies consume it. -/
structure UpstreamResponse where
  status : Nat
  body : String
deriving DecidableEq, Repr

/-- The permissive cross-origin header the handlers set. -/
def acao : String × String :=
  ("Access-Control-Allow-Origin", "*")

/-- Uppercase hex digit, for percent-encoding. -/
def hexDigit (n : Nat) : Char :=
  if n < 10 then Char.ofNat (48 + n) else Char.ofNat (55 + n)

/-- Percent-encode one byte as JS does: "%XY" with uppercase hex. -/
def encodeByte (b : UInt8) : String :=
  "%" ++ String.singleton (hexDigit (b.toNat / 16))
    ++ String.singleton (hexDigit (b.toNat % 16))

/-- The characters ECMAScript's encodeURIComponent leaves unescaped. -/
def isUriUnreserved (c : Char) : Bool :=
  c.isAlphanum || c = '-' || c = '_' || c = '.' || c = '!' || c = '~'
    || c = '*' || c = Char.ofNat 39 || c = '(' || c = ')'

/-- ECMAScript encodeURIComponent: unreserved characters pass through, every
other character is replaced by the percent-encoding of its UTF-8 bytes. -/
def encodeURIComponent (s : String) : String :=
  s.data.foldl (fun acc c =>
    if isUriUnreserved c then acc ++ String.singleton c
    else acc ++ (String.utf8EncodeChar c).foldl (fun a b => a ++ encodeByte b) "")
    ""

/-- JS `x || d` on an optional string: absent, or present but empty (falsy),
yields the default. -/
def jsOr (q : Option String) (d : String) : String :=
  match q with
  | none => d
  | some s => if s = "" then d else s

/-- The upstream URL built by the newsapi.org proxy (src/api/newsapi.js):
`https://newsapi.org/v2/everything?q=${encodeURIComponent(q || 'artificial
intelligence')}&sortBy=publishedAt&pageSize=${pageSize}&apiKey=${API_KEY}`
with pageSize defaulted to '10' by destructuring. -/
def newsapiUrl (q pageSize : Option String) (apiKey : String) : String :=
  "https://newsapi.org/v2/everything?q="
    ++ encodeURIComponent (jsOr q "artificial intelligence")
    ++ "&sortBy=publishedAt&pageSize=" ++ pageSize.getD "10"
    ++ "&apiKey=" ++ apiKey

/-- The upstream URL built by the newsdata.io proxy (src/unnamed/part_000):
`https://newsdata.io/api/1/news?apikey=${API_KEY}&q=${encodeURIComponent(q ||
'artificial intelligence')}&language=${language}` with language defaulted to
'en' by destructuring. -/
def newsdataUrl (q language : Option String) (apiKey : String) : String :=
  "https://newsdata.io/api/1/news?apikey=" ++ apiKey
    ++ "&q=" ++ encodeURIComponent (jsOr q "artificial intelligence")
    ++ "&language=" ++ language.getD "en"

/-- The upstream URL built by the sheets proxy (src/api/sheets.js): the fixed
sheet id, CSV export, `gid` defaulted with `||`. -/
def sheetsUrl (gid : Option String) : String :=
  "https://docs.google.com/spreadsheets/d/11a-_IWhljPJHeKV8vdke-JiLmm_KCq-bedSceKB0kZI/export?format=csv&gid="
    ++ jsOr gid "5770604"

/-- The newsapi.org proxy handler (src/api/newsapi.js, first handler): on a
received upstream response it sets the permissive CORS header and relays the
upstream status and body; on a thrown fetch it answers 500 with the
exception message (and no CORS header, since setHeader was not reached). -/
def newsapiHandler (fetch : String → Except String UpstreamResponse)
    (q pageSize : Option String) (apiKey : String) : HttpResponse :=
  match fetch (newsapiUrl q pageSize apiKey) with
  | .ok u => ⟨u.status, [acao], u.body⟩
  | .error e => ⟨500, [], jsonError e⟩

/-- The newsdata.io proxy handler (src/unnamed/part_000): same shape as the
newsapi.org handler. -/
def newsdataHandler (fetch : String → Except String UpstreamResponse)
    (q language : Option String) (apiKey : String) : HttpResponse :=
  match fetch (newsdataUrl q language apiKey) with
  | .ok u => ⟨u.status, [acao], u.body⟩
  | .error e => ⟨500, [], jsonError e⟩

/-- The sheets proxy handler (src/api/sheets.js): relays the upstream body as
text/csv with the CORS header but always with status 200
(`res.status(200).send(text)`); on a thrown fetch it answers 500 with the
exception message, with the CORS header (set in the catch block). -/
def sheetsHandler (fetch : String → Except String UpstreamResponse)
    (gid : Option String) : HttpResponse :=
  match fetch (sheetsUrl gid) with
  | .ok u => ⟨200, [acao, ("Content-Type", "text/csv")], u.body⟩
  | .error e => ⟨500, [acao], jsonError e⟩

/-- Request body of the text-to-speech proxy
(`const { text, voice = 'nova' } = req.body || {}`).  `text = some ""` models
a present-but-empty field, which is falsy in JS exactly like an absent one;
`voice` defaults by destructuring, so only absence triggers the default. -/
structure TtsBody where
  text : Option String
  voice : Option String
deriving DecidableEq, Repr

/-- What the TTS proxy sends upstream: the Authorization bearer key and the
request payload fields. -/
structure TtsCall where
  apiKey : String
  text : String
  voice : String
deriving DecidableEq, Repr

/-- The upstream response as the TTS proxy consumes it: `ok` is
`response.ok`, `body` is the error text (`response.text()`) when not ok, and
the audio buffer (abstracted to a string) when ok. -/
structure TtsUpstream where
  ok : Bool
  status : Nat
  body : String
deriving DecidableEq, Repr

/-- The CORS headers the TTS proxy sets before anything else. -/
def corsHeaders : List (String × String) :=
  [("Access-Control-Allow-Origin", "*"),
   ("Access-Control-Allow-Methods", "POST, OPTIONS"),
   ("Access-Control-Allow-Headers", "Content-Type")]

/-- The TTS proxy's result, instrumented with whether the upstream service
was contacted at all. -/
structure TtsResult where
  response : HttpResponse
  upstreamCalled : Bool
deriving DecidableEq, Repr

/-- The text-to-speech proxy handler (src/api/newsapi.js, second handler):
answers OPTIONS preflight with 200; with a falsy `text` (missing body, field
absent, or empty) answers 400 `{error:'No text provided'}` without calling
upstream; otherwise posts to the OpenAI speech endpoint and either relays
the audio (200, audio/mpeg), relays a non-ok upstream status with the
upstream error text as `{error: ...}`, or answers 500 `{error: e.message}`
when the fetch throws. -/
def ttsHandler (fetch : TtsCall → Except String TtsUpstream)
    (apiKey : String) (method : String) (body : Option TtsBody) : TtsResult :=
  if method = "OPTIONS" then ⟨⟨200, corsHeaders, ""⟩, false⟩
  else
    let b := body.getD ⟨none, none⟩
    let text := b.text.getD ""
    let voice := b.voice.getD "nova"
    if text = "" then
      ⟨⟨400, corsHeaders, jsonError "No text provided"⟩, false⟩
    else
      match fetch ⟨apiKey, text, voice⟩ with
      | .error e => ⟨⟨500, corsHeaders, jsonError e⟩, true⟩
      | .ok u =>
        if u.ok then
          ⟨⟨200, corsHeaders ++ [("Content-Type", "audio/mpeg")], u.body⟩, true⟩
        else
          ⟨⟨u.status, corsHeaders, jsonError u.body⟩, true⟩

/-- Naive substring test: does `needle` occur in `hay`? -/
def strContains (hay needle : String) : Bool :=
  (List.range (hay.data.length + 1)).any
    (fun i => needle.data.isPrefixOf (hay.data.drop i))

/-- Claim C3 counterexample: the sheets proxy does not forward the upstream
status code — with an upstream 404 it still answers 200
(`res.status(200).send(text)` in src/api/sheets.js). -/
theorem sheets_does_not_relay_status :
    (sheetsHandler (fun _ => Except.ok ⟨404, "not found"⟩) none).status = 200
    ∧ (200 : Nat) ≠ 404 :=
  ⟨rfl, by decide⟩

/-- Claim C3 (amended): when the upstream fetch yields a response, the two
news proxies relay the upstream status code and body unchanged and add the
permissive cross-origin allow header; the sheets proxy adds the header and
relays the body (as text/csv) but always answers status 200. -/
theorem proxy_relay_amended
    (fetch : String → Except String UpstreamResponse) (u : UpstreamResponse)
    (q pageSize language gid : Option String) (key : String)
    (h : ∀ url, fetch url = Except.ok u) :
    newsapiHandler fetch q pageSize key = ⟨u.status, [acao], u.body⟩
    ∧ newsdataHandler fetch q language key = ⟨u.status, [acao], u.body⟩
    ∧ sheetsHandler fetch gid
      = ⟨200, [acao, ("Content-Type", "text/csv")], u.body⟩ := by
  unfold newsapiHandler newsdataHandler sheetsHandler
  rw [h, h, h]
  exact ⟨rfl, rfl, rfl⟩

/-- Witness for C3 (amended) at a concrete upstream response. -/
theorem proxy_relay_amended_witness :
    newsapiHandler (fun _ => Except.ok ⟨201, "data"⟩) none none "K"
      = ⟨201, [acao], "data"⟩
    ∧ newsdataHandler (fun _ => Except.ok ⟨201, "data"⟩) none none "K"
      = ⟨201, [acao], "data"⟩
    ∧ sheetsHandler (fun _ => Except.ok ⟨201, "data"⟩) none
      = ⟨200, [acao, ("Content-Type", "text/csv")], "data"⟩ :=
  proxy_relay_amended (fun _ => Except.ok ⟨201, "data"⟩) ⟨201, "data"⟩
    none none none none "K" (fun _ => rfl)

/-- Claim C7: a request to the TTS proxy whose `text` is falsy — body
missing, field absent, or empty — gets the 400 `{error:'No text provided'}`
response, and the upstream service is never contacted, whatever it would
answer. -/
theorem tts_missing_text_400
    (fetch : TtsCall → Except String TtsUpstream) (apiKey method : String)
    (body : Option TtsBody)
    (hm : method ≠ "OPTIONS")
    (htext : (body.getD ⟨none, none⟩).text.getD "" = "") :
    ttsHandler fetch apiKey method body
      = ⟨⟨400, corsHeaders, jsonError "No text provided"⟩, false⟩ := by
  simp [ttsHandler, hm, htext]

/-- Witness for C7: a POST with no body at all. -/
theorem tts_missing_text_400_witness :
    ttsHandler (fun _ => Except.ok ⟨true, 200, "audio"⟩) "K" "POST" none
      = ⟨⟨400, corsHeaders, jsonError "No text provided"⟩, false⟩ :=
  tts_missing_text_400 (fun _ => Except.ok ⟨true, 200, "audio"⟩) "K" "POST"
    none (by decide) rfl

/-- Claim C8: when the upstream fetch throws, each proxy handler answers a
generic 500 whose JSON payload carries the exception's message, rather than
propagating the exception. -/
theorem proxy_upstream_failure_500
    (fetch : String → Except String UpstreamResponse) (e : String)
    (q pageSize language gid : Option String) (key : String)
    (hf : ∀ url, fetch url = Except.error e) :
    newsapiHandler fetch q pageSize key = ⟨500, [], jsonError e⟩
    ∧ newsdataHandler fetch q language key = ⟨500, [], jsonError e⟩
    ∧ sheetsHandler fetch gid = ⟨500, [acao], jsonError e⟩ := by
  unfold newsapiHandler newsdataHandler sheetsHandler
  rw [hf, hf, hf]
  exact ⟨rfl, rfl, rfl⟩

/-- Witness for C8 at a concrete thrown message. -/
theorem proxy_upstream_failure_500_witness :
    newsapiHandler (fun _ => Except.error "fetch failed") none none "K"
      = ⟨500, [], jsonError "fetch failed"⟩
    ∧ newsdataHandler (fun _ => Except.error "fetch failed") none none "K"
      = ⟨500, [], jsonError "fetch failed"⟩
    ∧ sheetsHandler (fun _ => Except.error "fetch failed") none
      = ⟨500, [acao], jsonError "fetch failed"⟩ :=
  proxy_upstream_failure_500 (fun _ => Except.error "fetch failed")
    "fetch failed" none none none none "K" (fun _ => rfl)

/-- Claim C9 is violated by the code (the spec itself flags this relay as a
defect): the TTS proxy relays upstream error text verbatim
(`res.status(response.status).json({ error: err })`), so an upstream error
message that echoes the Authorization key — here a 401 body quoting the key
— reaches the client's response body, which therefore contains the
server-held API key. -/
theorem tts_echoes_api_key_in_error_body :
    strContains
      ((ttsHandler
        (fun _ => Except.ok
          ⟨false, 401, "Incorrect API key provided: sk-SECRET123"⟩)
        "sk-SECRET123" "POST" (some ⟨some "hello", none⟩)).response.body)
      "sk-SECRET123" = true := by
  decide

/-- Claim C10: with `q` absent or empty, each news proxy builds the upstream
URL with the fixed default query 'artificial intelligence' (URI-encoded),
pageSize defaulting to '10' (newsapi.org) and language defaulting to 'en'
(newsdata.io): the URL is exactly the one an explicit default request would
produce, shown concretely for a sample key. -/
theorem news_default_query (key : String) :
    newsapiUrl none none key
      = newsapiUrl (some "artificial intelligence") (some "10") key
    ∧ newsapiUrl (some "") none key
      = newsapiUrl (some "artificial intelligence") (some "10") key
    ∧ newsdataUrl none none key
      = newsdataUrl (some "artificial intelligence") (some "en") key
    ∧ newsdataUrl (some "") none key
      = newsdataUrl (some "artificial intelligence") (some "en") key
    ∧ newsapiUrl none none "KEY"
      = "https://newsapi.org/v2/everything?q=artificial%20intelligence&sortBy=publishedAt&pageSize=10&apiKey=KEY"
    ∧ newsdataUrl none none "KEY"
      = "https://newsdata.io/api/1/news?apikey=KEY&q=artificial%20intelligence&language=en" :=
  ⟨rfl, rfl, rfl, rfl, by decide, by decide⟩

end AiRadar
